import Mathlib

set_option linter.unusedVariables false

/-!
Shallow embedding of the notification scheduling core of the GTFO sunset app
(src/convex/sunsets.ts and src/convex/devices.ts).

Modelling conventions:
- JS numbers carrying integral millisecond timestamps, ids and percent values are
  modelled as Int; geographic coordinates (which are fractional) as Rat.
- An IANA timezone string, as resolved by the Intl API, is modelled by
  Option Int: none models a missing or invalid timezone (the Intl constructor
  throws, the source catches), some off models a zone resolving to a fixed UTC
  offset of off minutes.  Calendar extraction (hour, minute, date) by Intl is
  floor arithmetic on utcMs + off * 60000.
- ISO date-time strings are represented by the instant (epoch ms) they denote;
  a date string by its day number (days since epoch).
- Ambient clock reads (Date.now, new Date()) are passed in as an explicit now
  parameter; the wall clock is frozen during one scheduler step.
- External calls (prediction fetch, device lookup, push transport) are passed
  in as explicit function or outcome parameters.
- Math.sin and Math.PI in the offline generator are passed in as parameters
  msin and mpi, since the claims about it do not depend on their values.
- Apostrophes occurring in source string literals are omitted.
-/

namespace GTFO

/-- JS remainder operator a % b on integral numbers: truncates toward zero
(for positive divisor b, as used throughout the source). -/
def jsRem (a b : Int) : Int := if a < 0 then -((-a) % b) else a % b

/-- Math.round: round half toward positive infinity. -/
def jsRound (q : Rat) : Int := ⌊q + 1/2⌋

/-- JS remainder a % b on fractional numbers: truncates toward zero. -/
def jsFmod (a b : Rat) : Rat :=
  a - b * ((if a / b < 0 then ⌈a / b⌉ else ⌊a / b⌋ : Int) : Rat)

/-- Model of an IANA timezone reference as resolved by Intl (see header). -/
abbrev Timezone := Option Int

/-- The local wall-clock reading at UTC instant utcMs in a zone of fixed
offset off minutes, in milliseconds. -/
def localClockMs (off utcMs : Int) : Int := utcMs + off * 60000

/-- Intl hour field (hour12: false), 0..23, of an instant in a zone. -/
def tzHour (off utcMs : Int) : Int := localClockMs off utcMs / 3600000 % 24

/-- Intl minute field, 0..59, of an instant in a zone. -/
def tzMinute (off utcMs : Int) : Int := localClockMs off utcMs / 60000 % 60

/-- The local calendar day number (the en-CA formatted date string is modelled
by its day count since epoch). -/
def tzDay (off utcMs : Int) : Int := localClockMs off utcMs / 86400000

/-- UTC calendar day number of an instant (toISOString date part). -/
def utcDay (utcMs : Int) : Int := utcMs / 86400000

/-- formatDateForTimezone(date, timeZone): local date in the given zone,
falling back to the UTC date when the timezone is missing or invalid. -/
def formatDateForTimezone (utcMs : Int) (tz : Timezone) : Int :=
  match tz with
  | some off => tzDay off utcMs
  | none => utcDay utcMs

/-- The day-wraparound applied to the signed minute delta in localTimeToUTC
(two sequential conditionals in the source). -/
def wrapDelta (d0 : Int) : Int :=
  let d1 := if d0 > 720 then d0 - 1440 else d0
  if d1 < -720 then d1 + 1440 else d1

/-- localTimeToUTC(dateStr, hour, minute, timezone): convert a local wall-clock
time to an absolute instant by the correction in the source: guess the UTC
instant naively, read back its local wall time, wrap the signed minute delta
across midnight at the 720-minute boundary, and shift the guess by the delta.
Without a timezone the naive string is returned unconverted. -/
def localTimeToUTC (day hour minute : Int) (tz : Timezone) : Int :=
  let naive := day * 86400000 + hour * 3600000 + minute * 60000
  match tz with
  | none => naive
  | some off =>
    let targetMinutes := hour * 60 + minute
    let guessMinutes := tzHour off naive * 60 + tzMinute off naive
    naive - wrapDelta (guessMinutes - targetMinutes) * 60000

/-- The ordered quality vocabulary of the sunsethue integration. -/
inductive Quality
  | Poor
  | Fair
  | Good
  | Great
  | Excellent
  deriving DecidableEq

/-- Rendering of a quality tier, as interpolated into push copy. -/
def qualityText : Quality → String
  | .Poor => "Poor"
  | .Fair => "Fair"
  | .Good => "Good"
  | .Great => "Great"
  | .Excellent => "Excellent"

/-- The normalized prediction shape (interface SunsetQuality). Optional
enrichment fields are Option. -/
structure SunsetQuality where
  quality : Quality
  qualityPercent : Int
  sunsetTime : Int
  validAt : Int
  isDemo : Bool
  cloudCover : Option Int
  sunsetAzimuth : Option Rat
  goldenHourStart : Option Int
  goldenHourEnd : Option Int
  blueHourStart : Option Int
  blueHourEnd : Option Int
  deriving DecidableEq

/-- The seed of the offline generator: (dayOfYear * 7 + floor(abs(latitude))) % 100,
with the JS remainder operator. -/
def mockSeed (dayOfYear : Int) (latitude : Rat) : Int :=
  jsRem (dayOfYear * 7 + ⌊|latitude|⌋) 100

/-- The quality tier assigned by generateMockSunset from its seed (the source
computes tier and percent in one if chain; they are split here into two
functions of the same seed). -/
def mockQuality (seed : Int) : Quality :=
  if seed < 25 then .Poor
  else if seed < 50 then .Fair
  else if seed < 80 then .Good
  else .Great

/-- The qualityPercent assigned by generateMockSunset from its seed. -/
def mockPercent (seed : Int) : Int :=
  if seed < 25 then 5 + jsRem seed 12
  else if seed < 50 then 20 + jsRem seed 30
  else if seed < 80 then 52 + jsRem seed 23
  else 76 + jsRem seed 24

/-- The sunset minute-of-day of the mock: Math.round(17*60+30 + seasonal
sinusoid), with Math.sin and Math.PI passed in as msin and mpi. -/
def mockSunsetMinutes (msin : Rat → Rat) (mpi : Rat) (dayOfYear : Int) : Int :=
  jsRound ((17 * 60 + 30 : Rat) + msin (((dayOfYear : Rat) - 80) * 2 * mpi / 365) * 90)

/-- makeTimeString of generateMockSunset at an offset of delta minutes from the
sunset minute: hour = Math.floor(minutes/60) % 24, min = minutes % 60,
converted by localTimeToUTC on the local date. -/
def mockTimeAt (msin : Rat → Rat) (mpi : Rat) (dayOfYear localDay : Int)
    (tz : Timezone) (delta : Int) : Int :=
  let minutes := mockSunsetMinutes msin mpi dayOfYear + delta
  localTimeToUTC localDay (jsRem (Int.fdiv minutes 60) 24) (jsRem minutes 60) tz

/-- generateMockSunset(latitude, timezone): the deterministic offline fallback
prediction.  dayOfYear is computed by the source from the ambient clock and
localDay is formatDateForTimezone(today, timezone); both are passed explicitly
here (see header). -/
def generateMockSunset (msin : Rat → Rat) (mpi : Rat) (dayOfYear localDay : Int)
    (latitude : Rat) (tz : Timezone) : SunsetQuality :=
  { quality := mockQuality (mockSeed dayOfYear latitude)
    qualityPercent := mockPercent (mockSeed dayOfYear latitude)
    sunsetTime := mockTimeAt msin mpi dayOfYear localDay tz 0
    validAt := mockTimeAt msin mpi dayOfYear localDay tz 0
    isDemo := true
    cloudCover := some (30 + jsRem (mockSeed dayOfYear latitude) 40)
    sunsetAzimuth := some (240 + jsFmod ((dayOfYear : Rat) * (1/5)) 60)
    goldenHourStart := some (mockTimeAt msin mpi dayOfYear localDay tz (-60))
    goldenHourEnd := some (mockTimeAt msin mpi dayOfYear localDay tz 0)
    blueHourStart := some (mockTimeAt msin mpi dayOfYear localDay tz 0)
    blueHourEnd := some (mockTimeAt msin mpi dayOfYear localDay tz 30) }

/-- QUALITY_THRESHOLD: Record<string, number> with keys Fair, Good, Great,
Excellent; a lookup at any other key (e.g. Poor) is undefined, modelled none. -/
def QUALITY_THRESHOLD : Quality → Option Int
  | .Fair => some 21
  | .Good => some 41
  | .Great => some 61
  | .Excellent => some 81
  | .Poor => none

/-- JS comparison p < t where t may be undefined (a comparison against
undefined is false). -/
def jsLt (p : Int) (t : Option Int) : Bool :=
  match t with
  | none => false
  | some t => decide (p < t)

/-- JS comparison p >= t where t may be undefined. -/
def jsGe (p : Int) (t : Option Int) : Bool :=
  match t with
  | none => false
  | some t => decide (t ≤ p)

/-- getLocalHour(timezone): current local hour 0..23, or null when the
timezone is missing or invalid. -/
def getLocalHour (tz : Timezone) (now : Int) : Option Int :=
  match tz with
  | none => none
  | some off => some (tzHour off now)

/-- The Local-Time Gate of checkMorningSunsets: the scan proceeds for a device
iff not (localHour === null or localHour < 11 or localHour > 16). -/
def localTimeGatePasses (tz : Timezone) (now : Int) : Bool :=
  match getLocalHour tz now with
  | none => false
  | some h => decide (11 ≤ h) && decide (h ≤ 16)

/-- A device row (devices table).  notifyTenMinBefore is absent from freshly
inserted rows in the source schema; an absent (undefined) boolean is modelled
false. -/
structure Device where
  id : Nat
  pushToken : String
  latitude : Rat
  longitude : Rat
  timezone : Timezone
  lastLocationUpdate : Int
  notifyMorning : Bool
  notifyHourBefore : Bool
  notifyTenMinBefore : Bool
  minQuality : Quality
  deriving DecidableEq

/-- The type field of a notifications row. -/
inductive NotifType
  | morning
  | reminder
  deriving DecidableEq

/-- A notifications row (append-only audit and dedup log). -/
structure NotificationRecord where
  deviceId : Nat
  sentAt : Int
  ntype : NotifType
  sunsetTime : Int
  quality : Quality
  qualityPercent : Int
  deriving DecidableEq

/-- The reminderType field of a pendingReminders row. -/
inductive RKind
  | hour
  | tenmin
  deriving DecidableEq

/-- A pendingReminders row as read back from the store (with its id). -/
structure PendingReminder where
  id : Nat
  deviceId : Nat
  scheduledFor : Int
  sunsetTime : Int
  quality : Quality
  qualityPercent : Int
  reminderType : Option RKind
  deriving DecidableEq

/-- The data of a pendingReminders row at insertion (the store assigns the id). -/
structure ReminderData where
  deviceId : Nat
  scheduledFor : Int
  sunsetTime : Int
  quality : Quality
  qualityPercent : Int
  reminderType : Option RKind
  deriving DecidableEq

/-- The dedup cutoff computed by hasMorningNotificationToday: today per the
device timezone, parsed as start of day in UTC; on an invalid timezone the
catch falls back to the UTC date. -/
def startOfTodayCutoff (tz : Timezone) (now : Int) : Int :=
  match tz with
  | some off => tzDay off now * 86400000
  | none => utcDay now * 86400000

/-- hasMorningNotificationToday: over the 5 most recent notification rows of
the device (recentDesc is the by_device index read in descending order), test
for a morning row with sentAt >= the cutoff. -/
def hasMorningNotificationToday (recentDesc : List NotificationRecord)
    (tz : Timezone) (now : Int) : Bool :=
  let todayStart := startOfTodayCutoff tz now
  (recentDesc.take 5).any (fun n => n.ntype == NotifType.morning && decide (todayStart ≤ n.sentAt))

/-- The outcome of one call to the push relay, as observed by
sendPushNotification: a parsed JSON reply (with optional data.status and
data.message), a JSON parse failure, or a thrown network error. -/
inductive PushTransport
  | reply (dataStatus : Option String) (message : Option String)
  | badJson (err : String)
  | netFail (err : String)
  deriving DecidableEq

/-- sendPushNotification: fire and forget.  Every transport outcome is caught
or merely logged; the result type Except String records that no exception
propagates (the error constructor is never produced). -/
def sendPushNotification (token title body : String) (t : PushTransport) :
    Except String (List String) :=
  match t with
  | .reply ds m =>
    if ds == some ("error") then .ok ["Push notification error: " ++ m.getD ""]
    else .ok []
  | .badJson e => .ok ["Failed to send push notification: " ++ e]
  | .netFail e => .ok ["Failed to send push notification: " ++ e]

/-- A push message handed to the transport (the source names the destination
field to; that word is a keyword here, so it is toToken). -/
structure PushMsg where
  toToken : String
  title : String
  body : String
  deriving DecidableEq

/-- Two-digit minute rendering. -/
def twoDigit (n : Int) : String := (if n < 10 then "0" else "") ++ toString n

/-- formatTime: 12-hour local clock rendering; an invalid timezone falls back
to the server locale (UTC on the deployment). -/
def formatTime (ms : Int) (tz : Timezone) : String :=
  let off := match tz with | some o => o | none => 0
  let h := tzHour off ms
  let h12 := if h % 12 = 0 then (12 : Int) else h % 12
  let ap := if h < 12 then "AM" else "PM"
  toString h12 ++ ":" ++ twoDigit (tzMinute off ms) ++ " " ++ ap

/-- The effect of one device iteration of checkMorningSunsets: the pushes
attempted, the notifications table rows for this device after the iteration
(newest first), the pendingReminders rows inserted, and console output. -/
structure ScanResult where
  pushes : List PushMsg
  notifsAfter : List NotificationRecord
  remindersCreated : List ReminderData
  logs : List String
  deriving DecidableEq

/-- A skipped iteration: no push, no insert. -/
def skipScan (notifs : List NotificationRecord) : ScanResult :=
  { pushes := [], notifsAfter := notifs, remindersCreated := [], logs := [] }

/-- One device iteration of checkMorningSunsets.  notifs is the device
notification history (newest first); fetchResult is the outcome of the
prediction fetch for the device location and local date (demo or live),
none meaning a failed fetch. -/
def morningScanStep (now : Int) (dev : Device) (notifs : List NotificationRecord)
    (fetchResult : Option SunsetQuality) (transport : PushTransport) : ScanResult :=
  if dev.notifyMorning = false then skipScan notifs
  else if localTimeGatePasses dev.timezone now = false then skipScan notifs
  else if hasMorningNotificationToday notifs dev.timezone now = true then skipScan notifs
  else
    match fetchResult with
    | none => skipScan notifs
    | some q =>
      if jsLt q.qualityPercent (QUALITY_THRESHOLD dev.minQuality) = true then skipScan notifs
      else
        let title := "Tonights sunset looks " ++ qualityText q.quality ++ "!"
        let body := qualityText q.quality ++ " sunset (" ++ toString q.qualityPercent
          ++ "%) expected at " ++ formatTime q.sunsetTime dev.timezone
          ++ ". Time to find a good spot!"
        let pushLogs := match sendPushNotification dev.pushToken title body transport with
          | .ok l => l
          | .error e => [e]
        let newRecord : NotificationRecord :=
          { deviceId := dev.id, sentAt := now, ntype := .morning,
            sunsetTime := q.sunsetTime, quality := q.quality,
            qualityPercent := q.qualityPercent }
        let sunsetTimestamp := q.sunsetTime
        let hourReminders : List ReminderData :=
          if dev.notifyHourBefore = true then
            if sunsetTimestamp - 60 * 60 * 1000 > now then
              [{ deviceId := dev.id, scheduledFor := sunsetTimestamp - 60 * 60 * 1000,
                 sunsetTime := q.sunsetTime, quality := q.quality,
                 qualityPercent := q.qualityPercent, reminderType := some .hour }]
            else []
          else []
        let tenMinReminders : List ReminderData :=
          if dev.notifyTenMinBefore = true then
            if sunsetTimestamp - 10 * 60 * 1000 > now then
              [{ deviceId := dev.id, scheduledFor := sunsetTimestamp - 10 * 60 * 1000,
                 sunsetTime := q.sunsetTime, quality := q.quality,
                 qualityPercent := q.qualityPercent, reminderType := some .tenmin }]
            else []
          else []
        { pushes := [{ toToken := dev.pushToken, title := title, body := body }]
          notifsAfter := newRecord :: notifs
          remindersCreated := hourReminders ++ tenMinReminders
          logs := pushLogs }

/-- getDueReminders: all pendingReminders with scheduledFor <= currentTime. -/
def getDueReminders (now : Int) (reminders : List PendingReminder) : List PendingReminder :=
  reminders.filter (fun r => decide (r.scheduledFor ≤ now))

/-- The effect of one sendDueReminders run: pushes attempted, notifications
rows appended, pendingReminders ids deleted, console output. -/
structure SweepResult where
  pushes : List PushMsg
  recordsCreated : List NotificationRecord
  deleted : List Nat
  logs : List String
  deriving DecidableEq

/-- Concatenation of sweep effects, in iteration order. -/
def sweepAppend (a b : SweepResult) : SweepResult :=
  { pushes := a.pushes ++ b.pushes
    recordsCreated := a.recordsCreated ++ b.recordsCreated
    deleted := a.deleted ++ b.deleted
    logs := a.logs ++ b.logs }

/-- The empty sweep effect. -/
def sweepEmpty : SweepResult :=
  { pushes := [], recordsCreated := [], deleted := [], logs := [] }

/-- One reminder iteration of sendDueReminders.  lookup is getDeviceById on
the current store, fetch is the prediction fetch at a device current location
and local date (demo or live; none meaning a failed fetch). -/
def processReminder (now : Int) (lookup : Nat → Option Device)
    (fetch : Device → Option SunsetQuality) (transport : PushTransport)
    (r : PendingReminder) : SweepResult :=
  match lookup r.deviceId with
  | none =>
    { pushes := [], recordsCreated := [], deleted := [r.id], logs := [] }
  | some dev =>
    let currentQuality := fetch dev
    let threshold := QUALITY_THRESHOLD dev.minQuality
    match currentQuality with
    | some q =>
      if jsGe q.qualityPercent threshold = true then
        let isTenMin := r.reminderType == some RKind.tenmin
        let title := if isTenMin then "Sunset starting soon!" else "Head outside now!"
        let body := if isTenMin then qualityText q.quality ++ " sunset in about 10 minutes. GTFO!"
          else qualityText q.quality ++ " sunset in about 1 hour. GTFO and enjoy it!"
        let pushLogs := match sendPushNotification dev.pushToken title body transport with
          | .ok l => l
          | .error e => [e]
        let newRecord : NotificationRecord :=
          { deviceId := dev.id, sentAt := now, ntype := .reminder,
            sunsetTime := q.sunsetTime, quality := q.quality,
            qualityPercent := q.qualityPercent }
        { pushes := [{ toToken := dev.pushToken, title := title, body := body }]
          recordsCreated := [newRecord]
          deleted := [r.id]
          logs := pushLogs }
      else
        { pushes := [], recordsCreated := [], deleted := [r.id],
          logs := ["Skipping reminder: quality at current location does not meet threshold"] }
    | none =>
      { pushes := [], recordsCreated := [], deleted := [r.id],
        logs := ["Skipping reminder: quality at current location does not meet threshold"] }

/-- sendDueReminders: read the due reminders at now and process each in order. -/
def sendDueRemindersRun (now : Int) (lookup : Nat → Option Device)
    (fetch : Device → Option SunsetQuality) (transport : PushTransport)
    (allReminders : List PendingReminder) : SweepResult :=
  ((getDueReminders now allReminders).map
    (processReminder now lookup fetch transport)).foldr sweepAppend sweepEmpty

/-- fuzzLocation of devices.ts: round to 2 decimals (about 1.1 km). -/
def fuzzLocation (coord : Rat) : Rat := (jsRound (coord * 100) : Rat) / 100

/-- The device row inserted by the auto-register branch of updateLocation:
location fuzzed, timezone defaulting to UTC (offset 0) when the argument is
absent, notifyMorning and notifyHourBefore on, minQuality Good
(notifyTenMinBefore is not set, hence undefined, modelled false). -/
def autoRegisterDevice (now : Int) (newId : Nat) (pushToken : String)
    (latitude longitude : Rat) (tzArg : Option Timezone) : Device :=
  { id := newId, pushToken := pushToken,
    latitude := fuzzLocation latitude, longitude := fuzzLocation longitude,
    timezone := tzArg.getD (some 0), lastLocationUpdate := now,
    notifyMorning := true, notifyHourBefore := true,
    notifyTenMinBefore := false, minQuality := Quality.Good }

/-- updateLocation of devices.ts over the devices table (rows in insertion
order; the by_push_token first() is the first matching row).  tzArg models the
optional timezone argument; a supplied timezone string resolves to a Timezone.
newId is the id the store assigns on insert. -/
def updateLocation (now : Int) (newId : Nat) (pushToken : String)
    (latitude longitude : Rat) (tzArg : Option Timezone)
    (devices : List Device) : List Device :=
  match devices.find? (fun d => d.pushToken == pushToken) with
  | none =>
    devices ++ [autoRegisterDevice now newId pushToken latitude longitude tzArg]
  | some dev =>
    devices.map (fun d =>
      if d.id = dev.id then
        { d with
          latitude := fuzzLocation latitude
          longitude := fuzzLocation longitude
          timezone := (match tzArg with | some t => t | none => d.timezone)
          lastLocationUpdate := now }
      else d)

/-! Concrete values used by witnesses and counterexamples. -/

/-- A successful transport reply. -/
def exTransport : PushTransport := .reply none none

/-- A Good 70 percent prediction. -/
def exQual70 : SunsetQuality :=
  { quality := .Good, qualityPercent := 70, sunsetTime := 1728090000000,
    validAt := 1728090000000, isDemo := true, cloudCover := none,
    sunsetAzimuth := none, goldenHourStart := none, goldenHourEnd := none,
    blueHourStart := none, blueHourEnd := none }

/-- A device in a UTC+12 zone with morning alerts on and reminders off. -/
def exDevPlus12 : Device :=
  { id := 1, pushToken := "tokA", latitude := 37, longitude := -122,
    timezone := some 720, lastLocationUpdate := 0, notifyMorning := true,
    notifyHourBefore := false, notifyTenMinBefore := false,
    minQuality := Quality.Good }

/-- A device in UTC with morning alerts on and reminders off. -/
def exDevUTC : Device :=
  { id := 1, pushToken := "tokB", latitude := -1, longitude := 2,
    timezone := some 0, lastLocationUpdate := 0, notifyMorning := true,
    notifyHourBefore := false, notifyTenMinBefore := false,
    minQuality := Quality.Good }

/-- A device with an invalid or missing timezone and every alert on. -/
def exDevNoTz : Device :=
  { id := 3, pushToken := "tokC", latitude := 0, longitude := 0,
    timezone := none, lastLocationUpdate := 0, notifyMorning := true,
    notifyHourBefore := true, notifyTenMinBefore := true,
    minQuality := Quality.Great }

/-- A UTC device with the one hour reminder enabled. -/
def exDevSched : Device :=
  { id := 4, pushToken := "tokD", latitude := 10, longitude := 10,
    timezone := some 0, lastLocationUpdate := 0, notifyMorning := true,
    notifyHourBefore := true, notifyTenMinBefore := false,
    minQuality := Quality.Good }

/-- A Good 70 percent prediction whose sunset is at 13:00 on day 0. -/
def exQualSched : SunsetQuality :=
  { quality := .Good, qualityPercent := 70, sunsetTime := 46800000,
    validAt := 46800000, isDemo := true, cloudCover := none,
    sunsetAzimuth := none, goldenHourStart := none, goldenHourEnd := none,
    blueHourStart := none, blueHourEnd := none }

/-- The one hour reminder row created by the scan of exDevSched at 39600000. -/
def exRemData : ReminderData :=
  { deviceId := 4, scheduledFor := 43200000, sunsetTime := 46800000,
    quality := .Good, qualityPercent := 70, reminderType := some .hour }

/-- The device owning the sweep example reminder. -/
def exDevSweep : Device :=
  { id := 2, pushToken := "tokE", latitude := 5, longitude := 6,
    timezone := some 0, lastLocationUpdate := 0, notifyMorning := true,
    notifyHourBefore := true, notifyTenMinBefore := false,
    minQuality := Quality.Good }

/-- A due pending reminder of exDevSweep. -/
def exReminder : PendingReminder :=
  { id := 12, deviceId := 2, scheduledFor := 50, sunsetTime := 46800000,
    quality := .Good, qualityPercent := 70, reminderType := some .hour }

/-- exReminder with a different stale snapshot (same id, device and kind). -/
def exReminder2 : PendingReminder :=
  { id := 12, deviceId := 2, scheduledFor := 7, sunsetTime := 1,
    quality := .Poor, qualityPercent := 5, reminderType := some .hour }

/-- A device lookup resolving every id to exDevSweep. -/
def exLookup : Nat → Option Device := fun _ => some exDevSweep

/-- A fetch returning exQual70 everywhere. -/
def exFetch : Device → Option SunsetQuality := fun _ => some exQual70

/-! Theorems. -/

/-- Readback of the corrected instant: shifting the guess by the wrapped delta
between the observed and the target minute of day lands on the target minute
of day (stated over the local clock reading L). -/
theorem wrapDelta_readback (L t : Int) (ht0 : 0 ≤ t) (ht1 : t < 1440) :
    (L - wrapDelta (L / 3600000 % 24 * 60 + L / 60000 % 60 - t) * 60000) / 3600000 % 24
        = t / 60 ∧
      (L - wrapDelta (L / 3600000 % 24 * 60 + L / 60000 % 60 - t) * 60000) / 60000 % 60
        = t % 60 := by
  simp only [wrapDelta]
  split_ifs <;> constructor <;> omega

/-- C8: for every fixed-offset timezone and target wall-clock (hour, minute)
on a given date, localTimeToUTC returns an instant whose hour and minute read
back in that timezone equal the request, via the guess, readback, wrap at 720
minutes and shift correction. -/
theorem localTimeToUTC_readback (off day hour minute : Int)
    (hh0 : 0 ≤ hour) (hh1 : hour < 24) (hm0 : 0 ≤ minute) (hm1 : minute < 60) :
    tzHour off (localTimeToUTC day hour minute (some off)) = hour ∧
      tzMinute off (localTimeToUTC day hour minute (some off)) = minute := by
  have key := wrapDelta_readback
    (day * 86400000 + hour * 3600000 + minute * 60000 + off * 60000)
    (hour * 60 + minute) (by omega) (by omega)
  obtain ⟨k1, k2⟩ := key
  simp only [localTimeToUTC, tzHour, tzMinute, localClockMs] at *
  constructor <;> omega

/-- Witness for C8 at offset -480 (UTC-8), 18:30 on day 20000. -/
theorem localTimeToUTC_readback_witness :
    tzHour (-480) (localTimeToUTC 20000 18 30 (some (-480))) = 18 ∧
      tzMinute (-480) (localTimeToUTC 20000 18 30 (some (-480))) = 30 :=
  localTimeToUTC_readback (-480) 20000 18 30 (by decide) (by decide) (by decide) (by decide)

/-- C9: the offline generator is deterministic, and its output depends on the
latitude only through floor(abs(latitude)), the seed being a pure function of
day of year and that floor. -/
theorem generateMockSunset_deterministic (msin : Rat → Rat) (mpi : Rat)
    (dayOfYear localDay : Int) (lat₁ lat₂ : Rat) (tz : Timezone)
    (hfl : (⌊|lat₁|⌋ : Int) = ⌊|lat₂|⌋) :
    generateMockSunset msin mpi dayOfYear localDay lat₁ tz
      = generateMockSunset msin mpi dayOfYear localDay lat₂ tz := by
  unfold generateMockSunset mockSeed
  rw [hfl]

/-- Witness for C9: latitudes 37 and -37 share the floored absolute value. -/
theorem generateMockSunset_deterministic_witness :
    generateMockSunset (fun _ => 0) 0 100 20000 37 (some 0)
      = generateMockSunset (fun _ => 0) 0 100 20000 (-37) (some 0) :=
  generateMockSunset_deterministic (fun _ => 0) 0 100 20000 37 (-37) (some 0)
    (by norm_num)

/-- The seed is in 0..99 for a nonnegative day of year. -/
theorem mockSeed_bounds (day : Int) (lat : Rat) (hday : 0 ≤ day) :
    0 ≤ mockSeed day lat ∧ mockSeed day lat < 100 := by
  have hfl : (0 : Int) ≤ ⌊|lat|⌋ := Int.floor_nonneg.mpr (abs_nonneg lat)
  unfold mockSeed jsRem
  split_ifs <;> omega

/-- Tier bands of the mock generator as functions of a seed in 0..99. -/
theorem mock_bands (s : Int) (h0 : 0 ≤ s) (h1 : s < 100) :
    (0 ≤ mockPercent s ∧ mockPercent s ≤ 100) ∧
      (mockQuality s = .Poor → 5 ≤ mockPercent s ∧ mockPercent s ≤ 16) ∧
      (mockQuality s = .Fair → 20 ≤ mockPercent s ∧ mockPercent s ≤ 49) ∧
      (mockQuality s = .Good → 52 ≤ mockPercent s ∧ mockPercent s ≤ 74) ∧
      (mockQuality s = .Great → 76 ≤ mockPercent s ∧ mockPercent s ≤ 99) ∧
      mockQuality s ≠ .Excellent := by
  unfold mockQuality mockPercent jsRem
  split_ifs <;> refine ⟨by omega, ?_, ?_, ?_, ?_, by simp⟩ <;> intro h <;>
    first
    | omega
    | simp at h

/-- C3 (amended): for every nonnegative day of year and latitude the mock
qualityPercent is in 0..100 and monotone with the tier, the tier bands being
Poor 5..16, Fair 20..49, Good 52..74, Great 76..99 (Excellent never produced);
these bands straddle the QUALITY_THRESHOLD cutoffs rather than matching them. -/
theorem generateMockSunset_band_structure (msin : Rat → Rat) (mpi : Rat)
    (dayOfYear localDay : Int) (lat : Rat) (tz : Timezone) (hday : 0 ≤ dayOfYear) :
    (0 ≤ (generateMockSunset msin mpi dayOfYear localDay lat tz).qualityPercent ∧
        (generateMockSunset msin mpi dayOfYear localDay lat tz).qualityPercent ≤ 100) ∧
      ((generateMockSunset msin mpi dayOfYear localDay lat tz).quality = .Poor →
        5 ≤ (generateMockSunset msin mpi dayOfYear localDay lat tz).qualityPercent ∧
          (generateMockSunset msin mpi dayOfYear localDay lat tz).qualityPercent ≤ 16) ∧
      ((generateMockSunset msin mpi dayOfYear localDay lat tz).quality = .Fair →
        20 ≤ (generateMockSunset msin mpi dayOfYear localDay lat tz).qualityPercent ∧
          (generateMockSunset msin mpi dayOfYear localDay lat tz).qualityPercent ≤ 49) ∧
      ((generateMockSunset msin mpi dayOfYear localDay lat tz).quality = .Good →
        52 ≤ (generateMockSunset msin mpi dayOfYear localDay lat tz).qualityPercent ∧
          (generateMockSunset msin mpi dayOfYear localDay lat tz).qualityPercent ≤ 74) ∧
      ((generateMockSunset msin mpi dayOfYear localDay lat tz).quality = .Great →
        76 ≤ (generateMockSunset msin mpi dayOfYear localDay lat tz).qualityPercent ∧
          (generateMockSunset msin mpi dayOfYear localDay lat tz).qualityPercent ≤ 99) ∧
      (generateMockSunset msin mpi dayOfYear localDay lat tz).quality ≠ .Excellent := by
  have hb := mockSeed_bounds dayOfYear lat hday
  exact mock_bands (mockSeed dayOfYear lat) hb.1 hb.2

/-- Witness for C3 (amended) at day of year 1, latitude 18. -/
theorem generateMockSunset_band_structure_witness :
    0 ≤ (generateMockSunset (fun _ => 0) 0 1 0 18 (some 0)).qualityPercent ∧
      (generateMockSunset (fun _ => 0) 0 1 0 18 (some 0)).qualityPercent ≤ 100 :=
  (generateMockSunset_band_structure (fun _ => 0) 0 1 0 18 (some 0) (by decide)).1

/-- C3 counterexample: at day of year 1 and latitude 18 the seed is 25, the
mock returns tier Fair with qualityPercent 45, which is not below the next
tier cutoff QUALITY_THRESHOLD Good = 41 (and hence inconsistent with the
threshold table). -/
theorem generateMockSunset_threshold_mismatch :
    (generateMockSunset (fun _ => 0) 0 1 0 18 (some 0)).quality = Quality.Fair ∧
      (generateMockSunset (fun _ => 0) 0 1 0 18 (some 0)).qualityPercent = 45 ∧
      QUALITY_THRESHOLD Quality.Good = some 41 ∧
      ¬((generateMockSunset (fun _ => 0) 0 1 0 18 (some 0)).qualityPercent < 41) := by
  have hfl : (⌊|(18 : Rat)|⌋ : Int) = 18 := by
    rw [abs_of_nonneg (by norm_num)]
    norm_num [Int.floor_eq_iff]
  have hseed : mockSeed 1 18 = 25 := by
    unfold mockSeed jsRem
    rw [hfl]
    norm_num
  refine ⟨?_, ?_, rfl, ?_⟩ <;>
    simp [generateMockSunset, hseed, mockQuality, mockPercent, jsRem]

/-- C10: updateLocation with an unknown push token silently inserts a device
whose preferences default to notifyMorning = true, notifyHourBefore = true,
minQuality = Good (threshold 41), and whose timezone defaults to UTC when no
timezone argument is supplied. -/
theorem updateLocation_autoregister_defaults (now : Int) (newId : Nat)
    (token : String) (lat lon : Rat) (tzArg : Option Timezone)
    (devices : List Device)
    (h : devices.find? (fun d => d.pushToken == token) = none) :
    updateLocation now newId token lat lon tzArg devices
        = devices ++ [autoRegisterDevice now newId token lat lon tzArg] ∧
      (autoRegisterDevice now newId token lat lon tzArg).notifyMorning = true ∧
      (autoRegisterDevice now newId token lat lon tzArg).notifyHourBefore = true ∧
      (autoRegisterDevice now newId token lat lon tzArg).minQuality = Quality.Good ∧
      (autoRegisterDevice now newId token lat lon tzArg).timezone = tzArg.getD (some 0) ∧
      QUALITY_THRESHOLD (autoRegisterDevice now newId token lat lon tzArg).minQuality
        = some 41 := by
  refine ⟨?_, rfl, rfl, rfl, rfl, rfl⟩
  unfold updateLocation
  rw [h]

/-- Every branch of one reminder iteration emits exactly the deletion of that
reminder: device missing, fetch failed, below threshold, or push sent. -/
theorem processReminder_deleted (now : Int) (lookup : Nat → Option Device)
    (fetch : Device → Option SunsetQuality) (t : PushTransport) (r : PendingReminder) :
    (processReminder now lookup fetch t r).deleted = [r.id] := by
  rcases hl : lookup r.deviceId with _ | dev
  · simp [processReminder, hl]
  · rcases hf : fetch dev with _ | q
    · simp [processReminder, hl, hf]
    · by_cases h : jsGe q.qualityPercent (QUALITY_THRESHOLD dev.minQuality) = true
      · simp [processReminder, hl, hf, h]
      · simp [processReminder, hl, hf, h]

/-- The deletions of a folded sweep are the ids of the processed reminders. -/
theorem sweepRun_deleted_map (now : Int) (lookup : Nat → Option Device)
    (fetch : Device → Option SunsetQuality) (t : PushTransport)
    (l : List PendingReminder) :
    ((l.map (processReminder now lookup fetch t)).foldr sweepAppend sweepEmpty).deleted
      = l.map (fun r => r.id) := by
  induction l with
  | nil => rfl
  | cons a l ih => simp [sweepAppend, processReminder_deleted, ih]

/-- C2: the reminder sweep deletes every reminder it reads as due
(scheduledFor <= now) exactly once, in every branch: push sent, fresh quality
below threshold, fetch failed, or owning device missing. -/
theorem sendDueReminders_deletes_exactly_once (now : Int)
    (lookup : Nat → Option Device) (fetch : Device → Option SunsetQuality)
    (t : PushTransport) (allReminders : List PendingReminder) :
    (sendDueRemindersRun now lookup fetch t allReminders).deleted
        = (getDueReminders now allReminders).map (fun r => r.id) ∧
      ((allReminders.map (fun r => r.id)).Nodup →
        ∀ r ∈ getDueReminders now allReminders,
          ((sendDueRemindersRun now lookup fetch t allReminders).deleted).count r.id
            = 1) := by
  have hd : (sendDueRemindersRun now lookup fetch t allReminders).deleted
      = (getDueReminders now allReminders).map (fun r => r.id) :=
    sweepRun_deleted_map now lookup fetch t (getDueReminders now allReminders)
  refine ⟨hd, fun hnd r hr => ?_⟩
  rw [hd]
  have hsub : List.Sublist ((getDueReminders now allReminders).map (fun r => r.id))
      (allReminders.map (fun r => r.id)) := by
    unfold getDueReminders
    exact (List.filter_sublist allReminders).map _
  exact List.count_eq_one_of_mem (hnd.sublist hsub) (List.mem_map_of_mem _ hr)

/-- Witness for C2 on a one-element reminder table. -/
theorem sendDueReminders_deletes_exactly_once_witness :
    ((sendDueRemindersRun 100 exLookup exFetch exTransport [exReminder]).deleted).count
      exReminder.id = 1 :=
  (sendDueReminders_deletes_exactly_once 100 exLookup exFetch exTransport [exReminder]).2
    (by decide) exReminder (by decide)

/-- C5: when the owning device exists, the sweep decision is a function of the
fresh fetch at the current device and the device current minQuality only: a
reminder push is sent iff the fresh percent clears
QUALITY_THRESHOLD[minQuality], and the outcome is invariant under the
snapshot captured in the reminder (only its id, deviceId and kind matter). -/
theorem reminderSweep_uses_current_device_state (now : Int)
    (lookup : Nat → Option Device) (fetch : Device → Option SunsetQuality)
    (t : PushTransport) (r : PendingReminder) (dev : Device)
    (hdev : lookup r.deviceId = some dev) :
    ((processReminder now lookup fetch t r).pushes ≠ [] ↔
        ∃ q, fetch dev = some q ∧
          jsGe q.qualityPercent (QUALITY_THRESHOLD dev.minQuality) = true) ∧
      (∀ r' : PendingReminder, r'.id = r.id → r'.deviceId = r.deviceId →
        r'.reminderType = r.reminderType →
        processReminder now lookup fetch t r' = processReminder now lookup fetch t r) := by
  constructor
  · rcases hf : fetch dev with _ | q
    · simp [processReminder, hdev, hf]
    · by_cases h : jsGe q.qualityPercent (QUALITY_THRESHOLD dev.minQuality) = true
      · simp [processReminder, hdev, hf, h]
      · simp [processReminder, hdev, hf, h]
  · intro r' h1 h2 h3
    unfold processReminder
    rw [h1, h2, h3]

/-- Witness for C5: a reminder with a degraded stale snapshot is processed
identically, and the push goes out since the fresh percent clears Good. -/
theorem reminderSweep_uses_current_device_state_witness :
    processReminder 100 exLookup exFetch exTransport exReminder2
        = processReminder 100 exLookup exFetch exTransport exReminder ∧
      (processReminder 100 exLookup exFetch exTransport exReminder).pushes ≠ [] :=
  ⟨(reminderSweep_uses_current_device_state 100 exLookup exFetch exTransport exReminder
        exDevSweep rfl).2 exReminder2 rfl rfl rfl,
    (reminderSweep_uses_current_device_state 100 exLookup exFetch exTransport exReminder
        exDevSweep rfl).1.mpr ⟨exQual70, rfl, by decide⟩⟩

/-- The morning scan effects other than console output do not depend on the
transport outcome. -/
theorem morningScanStep_transport (now : Int) (dev : Device)
    (notifs : List NotificationRecord) (f : Option SunsetQuality)
    (t₁ t₂ : PushTransport) :
    (morningScanStep now dev notifs f t₁).pushes
        = (morningScanStep now dev notifs f t₂).pushes ∧
      (morningScanStep now dev notifs f t₁).notifsAfter
        = (morningScanStep now dev notifs f t₂).notifsAfter ∧
      (morningScanStep now dev notifs f t₁).remindersCreated
        = (morningScanStep now dev notifs f t₂).remindersCreated := by
  by_cases h1 : dev.notifyMorning = false
  · simp [morningScanStep, h1]
  · by_cases h2 : localTimeGatePasses dev.timezone now = false
    · simp [morningScanStep, h1, h2]
    · by_cases h3 : hasMorningNotificationToday notifs dev.timezone now = true
      · simp [morningScanStep, h1, h2, h3]
      · cases f with
        | none => simp [morningScanStep, h1, h2, h3]
        | some q =>
          by_cases h4 : jsLt q.qualityPercent (QUALITY_THRESHOLD dev.minQuality) = true
          · simp [morningScanStep, h1, h2, h3, h4]
          · simp [morningScanStep, h1, h2, h3, h4]

/-- The sweep effects other than console output do not depend on the transport
outcome, one reminder at a time. -/
theorem processReminder_transport (now : Int) (lookup : Nat → Option Device)
    (fetch : Device → Option SunsetQuality) (t₁ t₂ : PushTransport)
    (r : PendingReminder) :
    (processReminder now lookup fetch t₁ r).pushes
        = (processReminder now lookup fetch t₂ r).pushes ∧
      (processReminder now lookup fetch t₁ r).recordsCreated
        = (processReminder now lookup fetch t₂ r).recordsCreated ∧
      (processReminder now lookup fetch t₁ r).deleted
        = (processReminder now lookup fetch t₂ r).deleted := by
  rcases hl : lookup r.deviceId with _ | dev
  · simp [processReminder, hl]
  · rcases hf : fetch dev with _ | q
    · simp [processReminder, hl, hf]
    · by_cases h : jsGe q.qualityPercent (QUALITY_THRESHOLD dev.minQuality) = true
      · simp [processReminder, hl, hf, h]
      · simp [processReminder, hl, hf, h]

/-- The whole sweep run is transport invariant except for console output. -/
theorem sweepRun_transport (now : Int) (lookup : Nat → Option Device)
    (fetch : Device → Option SunsetQuality) (t₁ t₂ : PushTransport)
    (allReminders : List PendingReminder) :
    (sendDueRemindersRun now lookup fetch t₁ allReminders).pushes
        = (sendDueRemindersRun now lookup fetch t₂ allReminders).pushes ∧
      (sendDueRemindersRun now lookup fetch t₁ allReminders).recordsCreated
        = (sendDueRemindersRun now lookup fetch t₂ allReminders).recordsCreated ∧
      (sendDueRemindersRun now lookup fetch t₁ allReminders).deleted
        = (sendDueRemindersRun now lookup fetch t₂ allReminders).deleted := by
  unfold sendDueRemindersRun
  generalize getDueReminders now allReminders = l
  induction l with
  | nil => exact ⟨rfl, rfl, rfl⟩
  | cons a l ih =>
    obtain ⟨p1, p2, p3⟩ := processReminder_transport now lookup fetch t₁ t₂ a
    obtain ⟨q1, q2, q3⟩ := ih
    refine ⟨?_, ?_, ?_⟩ <;> simp only [List.map_cons, List.foldr_cons, sweepAppend]
    · rw [p1, q1]
    · rw [p2, q2]
    · rw [p3, q3]

/-- C7: sendPushNotification returns normally on every transport outcome (the
exception constructor of its result type is never produced), and in both
schedulers the recorded notifications, attempted pushes and reminder
bookkeeping are identical whatever the transport outcome was. -/
theorem pushFailure_never_propagates :
    (∀ (token title body : String) (t : PushTransport),
      ∃ logs, sendPushNotification token title body t = Except.ok logs) ∧
      (∀ (now : Int) (dev : Device) (notifs : List NotificationRecord)
          (f : Option SunsetQuality) (t₁ t₂ : PushTransport),
        (morningScanStep now dev notifs f t₁).notifsAfter
            = (morningScanStep now dev notifs f t₂).notifsAfter ∧
          (morningScanStep now dev notifs f t₁).pushes
            = (morningScanStep now dev notifs f t₂).pushes ∧
          (morningScanStep now dev notifs f t₁).remindersCreated
            = (morningScanStep now dev notifs f t₂).remindersCreated) ∧
      (∀ (now : Int) (lookup : Nat → Option Device)
          (fetch : Device → Option SunsetQuality) (t₁ t₂ : PushTransport)
          (allReminders : List PendingReminder),
        (sendDueRemindersRun now lookup fetch t₁ allReminders).recordsCreated
            = (sendDueRemindersRun now lookup fetch t₂ allReminders).recordsCreated ∧
          (sendDueRemindersRun now lookup fetch t₁ allReminders).pushes
            = (sendDueRemindersRun now lookup fetch t₂ allReminders).pushes ∧
          (sendDueRemindersRun now lookup fetch t₁ allReminders).deleted
            = (sendDueRemindersRun now lookup fetch t₂ allReminders).deleted) := by
  refine ⟨?_, ?_, ?_⟩
  · intro token title body t
    cases t with
    | reply ds m =>
      by_cases h : (ds == some ("error")) = true
      · exact ⟨["Push notification error: " ++ m.getD ""], by simp [sendPushNotification, h]⟩
      · exact ⟨[], by simp [sendPushNotification, h]⟩
    | badJson e => exact ⟨_, rfl⟩
    | netFail e => exact ⟨_, rfl⟩
  · intro now dev notifs f t₁ t₂
    obtain ⟨p1, p2, p3⟩ := morningScanStep_transport now dev notifs f t₁ t₂
    exact ⟨p2, p1, p3⟩
  · intro now lookup fetch t₁ t₂ allReminders
    obtain ⟨p1, p2, p3⟩ := sweepRun_transport now lookup fetch t₁ t₂ allReminders
    exact ⟨p2, p1, p3⟩

/-- C4: the scan proceeds past the Local-Time Gate iff getLocalHour returns an
hour in 11..16 from the stored timezone; a device whose timezone is missing or
invalid is skipped on every tick, whatever its other preferences, and is never
gated as if it were in UTC. -/
theorem localTimeGate_window_and_invalid_skip :
    (∀ (tz : Timezone) (now : Int),
      localTimeGatePasses tz now = true ↔
        ∃ h, getLocalHour tz now = some h ∧ 11 ≤ h ∧ h ≤ 16) ∧
      (∀ dev : Device, dev.timezone = none →
        ∀ (now : Int) (notifs : List NotificationRecord)
          (f : Option SunsetQuality) (t : PushTransport),
          morningScanStep now dev notifs f t = skipScan notifs) := by
  constructor
  · intro tz now
    cases tz with
    | none => simp [localTimeGatePasses, getLocalHour]
    | some off => simp [localTimeGatePasses, getLocalHour]
  · intro dev htz now notifs f t
    by_cases h1 : dev.notifyMorning = false
    · simp [morningScanStep, h1]
    · simp [morningScanStep, h1, htz, localTimeGatePasses, getLocalHour]

/-- Witness for C4: the all-preferences-on device with an invalid timezone is
skipped. -/
theorem localTimeGate_window_and_invalid_skip_witness :
    morningScanStep 0 exDevNoTz [] (some exQual70) exTransport = skipScan [] :=
  localTimeGate_window_and_invalid_skip.2 exDevNoTz rfl 0 [] (some exQual70) exTransport

/-- C6: every pending reminder created by one scan iteration has scheduledFor
strictly greater than the scan-time clock, for both reminder kinds. -/
theorem pendingReminders_scheduled_in_future (now : Int) (dev : Device)
    (notifs : List NotificationRecord) (f : Option SunsetQuality)
    (t : PushTransport) (r : ReminderData)
    (hr : r ∈ (morningScanStep now dev notifs f t).remindersCreated) :
    now < r.scheduledFor := by
  by_cases h1 : dev.notifyMorning = false
  · simp [morningScanStep, h1, skipScan] at hr
  · by_cases h2 : localTimeGatePasses dev.timezone now = false
    · simp [morningScanStep, h1, h2, skipScan] at hr
    · by_cases h3 : hasMorningNotificationToday notifs dev.timezone now = true
      · simp [morningScanStep, h1, h2, h3, skipScan] at hr
      · cases f with
        | none => simp [morningScanStep, h1, h2, h3, skipScan] at hr
        | some q =>
          by_cases h4 : jsLt q.qualityPercent (QUALITY_THRESHOLD dev.minQuality) = true
          · simp [morningScanStep, h1, h2, h3, h4, skipScan] at hr
          · have hr' : r ∈ (if dev.notifyHourBefore = true then
                  if q.sunsetTime - 60 * 60 * 1000 > now then
                    [({ deviceId := dev.id, scheduledFor := q.sunsetTime - 60 * 60 * 1000,
                        sunsetTime := q.sunsetTime, quality := q.quality,
                        qualityPercent := q.qualityPercent,
                        reminderType := some RKind.hour } : ReminderData)]
                  else []
                else []) ++ (if dev.notifyTenMinBefore = true then
                  if q.sunsetTime - 10 * 60 * 1000 > now then
                    [({ deviceId := dev.id, scheduledFor := q.sunsetTime - 10 * 60 * 1000,
                        sunsetTime := q.sunsetTime, quality := q.quality,
                        qualityPercent := q.qualityPercent,
                        reminderType := some RKind.tenmin } : ReminderData)]
                  else []
                else []) := by
              simpa [morningScanStep, h1, h2, h3, h4] using hr
            rw [List.mem_append] at hr'
            rcases hr' with hr' | hr' <;> split_ifs at hr' <;> simp_all

/-- Witness for C6: the one hour reminder created for exDevSched fires after
the scan time. -/
theorem pendingReminders_scheduled_in_future_witness :
    (39600000 : Int) < exRemData.scheduledFor :=
  pendingReminders_scheduled_in_future 39600000 exDevSched [] (some exQualSched)
    exTransport exRemData (by decide)

/-- One scan iteration attempts at most one push. -/
theorem scanStep_pushes_length_le_one (now : Int) (dev : Device)
    (notifs : List NotificationRecord) (f : Option SunsetQuality)
    (t : PushTransport) :
    (morningScanStep now dev notifs f t).pushes.length ≤ 1 := by
  by_cases h1 : dev.notifyMorning = false
  · simp [morningScanStep, h1, skipScan]
  · by_cases h2 : localTimeGatePasses dev.timezone now = false
    · simp [morningScanStep, h1, h2, skipScan]
    · by_cases h3 : hasMorningNotificationToday notifs dev.timezone now = true
      · simp [morningScanStep, h1, h2, h3, skipScan]
      · cases f with
        | none => simp [morningScanStep, h1, h2, h3, skipScan]
        | some q =>
          by_cases h4 : jsLt q.qualityPercent (QUALITY_THRESHOLD dev.minQuality) = true
          · simp [morningScanStep, h1, h2, h3, h4, skipScan]
          · simp [morningScanStep, h1, h2, h3, h4, skipScan]

/-- A dedup hit makes the whole iteration a skip. -/
theorem scanStep_skip_of_dedup (now : Int) (dev : Device)
    (notifs : List NotificationRecord) (f : Option SunsetQuality)
    (t : PushTransport)
    (hd : hasMorningNotificationToday notifs dev.timezone now = true) :
    morningScanStep now dev notifs f t = skipScan notifs := by
  by_cases h1 : dev.notifyMorning = false
  · simp [morningScanStep, h1]
  · by_cases h2 : localTimeGatePasses dev.timezone now = false
    · simp [morningScanStep, h1, h2]
    · simp [morningScanStep, h1, h2, hd]

/-- A dispatching iteration passed every earlier check, sent one push, and
prepended one morning record stamped with the scan time. -/
theorem scanStep_dispatch_shape (now : Int) (dev : Device)
    (notifs : List NotificationRecord) (f : Option SunsetQuality)
    (t : PushTransport)
    (hp : (morningScanStep now dev notifs f t).pushes ≠ []) :
    dev.notifyMorning = true ∧
      localTimeGatePasses dev.timezone now = true ∧
      hasMorningNotificationToday notifs dev.timezone now = false ∧
      ∃ q, f = some q ∧
        (morningScanStep now dev notifs f t).notifsAfter =
          { deviceId := dev.id, sentAt := now, ntype := NotifType.morning,
            sunsetTime := q.sunsetTime, quality := q.quality,
            qualityPercent := q.qualityPercent } :: notifs ∧
        (morningScanStep now dev notifs f t).pushes.length = 1 := by
  by_cases h1 : dev.notifyMorning = false
  · simp [morningScanStep, h1, skipScan] at hp
  · by_cases h2 : localTimeGatePasses dev.timezone now = false
    · simp [morningScanStep, h1, h2, skipScan] at hp
    · by_cases h3 : hasMorningNotificationToday notifs dev.timezone now = true
      · simp [morningScanStep, h1, h2, h3, skipScan] at hp
      · cases f with
        | none => simp [morningScanStep, h1, h2, h3, skipScan] at hp
        | some q =>
          by_cases h4 : jsLt q.qualityPercent (QUALITY_THRESHOLD dev.minQuality) = true
          · simp [morningScanStep, h1, h2, h3, h4, skipScan] at hp
          · refine ⟨by simpa using h1, by simpa using h2, by simpa using h3,
              q, rfl, ?_, ?_⟩
            · simp [morningScanStep, h1, h2, h3, h4]
            · simp [morningScanStep, h1, h2, h3, h4]

/-- If the gate passed (local hour at least 11) in a zone at most UTC+11, the
send instant is not before the UTC midnight of the local date used as the
dedup cutoff. -/
theorem gate_cutoff_le_now (off now : Int) (hoff : off ≤ 660)
    (hg : localTimeGatePasses (some off) now = true) :
    startOfTodayCutoff (some off) now ≤ now := by
  simp [localTimeGatePasses, getLocalHour] at hg
  obtain ⟨hg1, hg2⟩ := hg
  simp only [tzHour, localClockMs] at hg1
  simp only [startOfTodayCutoff, tzDay, localClockMs]
  omega

/-- A freshly prepended morning record at or after the cutoff makes the dedup
query answer yes. -/
theorem dedup_hits (rec : NotificationRecord) (notifs : List NotificationRecord)
    (tz : Timezone) (now : Int) (hty : rec.ntype = NotifType.morning)
    (hge : startOfTodayCutoff tz now ≤ rec.sentAt) :
    hasMorningNotificationToday (rec :: notifs) tz now = true := by
  simp [hasMorningNotificationToday, hty, hge]

/-- C1 (amended): two scans in the same local calendar day of an unchanged
device dispatch at most one morning push, and a second scan after a dispatch
appends no further record, provided the device UTC offset is at most +11
hours; the dedup cutoff is the UTC midnight of the local date (not the local
midnight), so the guarantee needs that bound (see the counterexample at
UTC+12). -/
theorem morningScan_same_day_at_most_once (dev : Device) (off : Int)
    (htz : dev.timezone = some off) (hoff : off ≤ 660)
    (notifs : List NotificationRecord) (now₁ now₂ : Int)
    (hday : tzDay off now₁ = tzDay off now₂)
    (f₁ f₂ : Option SunsetQuality) (t₁ t₂ : PushTransport) :
    (morningScanStep now₁ dev notifs f₁ t₁).pushes.length +
        (morningScanStep now₂ dev
          (morningScanStep now₁ dev notifs f₁ t₁).notifsAfter f₂ t₂).pushes.length ≤ 1 ∧
      ((morningScanStep now₁ dev notifs f₁ t₁).pushes ≠ [] →
        (morningScanStep now₂ dev
            (morningScanStep now₁ dev notifs f₁ t₁).notifsAfter f₂ t₂).notifsAfter
          = (morningScanStep now₁ dev notifs f₁ t₁).notifsAfter) := by
  by_cases hp : (morningScanStep now₁ dev notifs f₁ t₁).pushes = []
  · constructor
    · have h0 : (morningScanStep now₁ dev notifs f₁ t₁).pushes.length = 0 := by
        rw [hp]
        rfl
      have h2 := scanStep_pushes_length_le_one now₂ dev
        (morningScanStep now₁ dev notifs f₁ t₁).notifsAfter f₂ t₂
      omega
    · intro hp'
      exact absurd hp hp'
  · obtain ⟨hm, hg, hdd, q, hf, hna, hlen⟩ :=
      scanStep_dispatch_shape now₁ dev notifs f₁ t₁ hp
    rw [htz] at hg
    have hcut : startOfTodayCutoff (some off) now₂ ≤ now₁ := by
      have hc1 := gate_cutoff_le_now off now₁ hoff hg
      have he : startOfTodayCutoff (some off) now₂ = startOfTodayCutoff (some off) now₁ := by
        simp only [startOfTodayCutoff]
        rw [hday]
      rw [he]
      exact hc1
    have hd2 : hasMorningNotificationToday
        ({ deviceId := dev.id, sentAt := now₁, ntype := NotifType.morning,
           sunsetTime := q.sunsetTime, quality := q.quality,
           qualityPercent := q.qualityPercent } :: notifs) (some off) now₂ = true :=
      dedup_hits _ notifs (some off) now₂ rfl hcut
    rw [← htz] at hd2
    have hskip := scanStep_skip_of_dedup now₂ dev _ f₂ t₂ hd2
    constructor
    · rw [hna, hskip]
      simp [skipScan, hlen]
    · intro _
      rw [hna, hskip]
      rfl

/-- Witness for C1 (amended): a UTC device scanned at 11:00 and 12:00 of the
same day. -/
theorem morningScan_same_day_at_most_once_witness :
    (morningScanStep 39600000 exDevUTC [] (some exQual70) exTransport).pushes.length +
        (morningScanStep 43200000 exDevUTC
          (morningScanStep 39600000 exDevUTC [] (some exQual70) exTransport).notifsAfter
          (some exQual70) exTransport).pushes.length ≤ 1 :=
  (morningScan_same_day_at_most_once exDevUTC 0 rfl (by decide) [] 39600000 43200000
    (by decide) (some exQual70) (some exQual70) exTransport exTransport).1

/-- C1 counterexample: a device at UTC+12.  The first scan runs at 11:00 local
(22:00 UTC of the previous calendar date), the second at 13:00 local the same
local day; the dedup cutoff is UTC midnight of the local date, which is after
the first send instant, so both scans dispatch a morning push. -/
theorem morningScan_double_dispatch_at_utc12 :
    tzDay 720 1727996400000 = tzDay 720 1728003600000 ∧
      (morningScanStep 1727996400000 exDevPlus12 [] (some exQual70)
        exTransport).pushes.length = 1 ∧
      (morningScanStep 1728003600000 exDevPlus12
        (morningScanStep 1727996400000 exDevPlus12 [] (some exQual70)
          exTransport).notifsAfter
        (some exQual70) exTransport).pushes.length = 1 := by
  refine ⟨by decide, by decide, by decide⟩

/-- Witness for C10 on an empty devices table with no timezone argument. -/
theorem updateLocation_autoregister_defaults_witness :
    updateLocation 0 1 ("t") 0 0 none []
        = [] ++ [autoRegisterDevice 0 1 ("t") 0 0 none] ∧
      (autoRegisterDevice 0 1 ("t") 0 0 none).notifyMorning = true ∧
      (autoRegisterDevice 0 1 ("t") 0 0 none).notifyHourBefore = true ∧
      (autoRegisterDevice 0 1 ("t") 0 0 none).minQuality = Quality.Good ∧
      (autoRegisterDevice 0 1 ("t") 0 0 none).timezone = Option.getD none (some 0) ∧
      QUALITY_THRESHOLD (autoRegisterDevice 0 1 ("t") 0 0 none).minQuality = some 41 :=
  updateLocation_autoregister_defaults 0 1 ("t") 0 0 none [] rfl

end GTFO
